import Mathlib

/-!
Shallow embedding of `src/data_pipeline/validate_raw_data.py`, the
validation and contract-enforcement engine for raw fulfillment data.

Tables are modelled as an ordered header (column name + dtype) together
with an ordered list of rows; cells are null, strings, integers, or
timestamp values.  A cell `Cell.ts t` stands for any value that
`pandas.to_datetime` parses to the instant `t`; every other cell is
unparsable as a timestamp (`errors='coerce'` maps it to NaT).  The
`Report` is the three-channel append-only log of the script.  Pandas
semantics that the script relies on are embedded explicitly:
`DataFrame.duplicated` treats nulls as equal to each other, `isnull`
detects null cells, `Series.isin` is set membership, and column access
`df[c]` on a missing column raises `KeyError`, which we surface as
`Except.error` in the one function (`run_cross_table_validations`)
whose column accesses are not guarded by a presence check.
-/

set_option autoImplicit false

namespace RawDataValidation

/-- A single cell of a loaded table: null (NaN/None), a string, a number,
or a timestamp-like value; `Cell.ts t` abstracts any value that pandas
`to_datetime` can parse, with `t` the parsed instant. -/
inductive Cell where
  | null
  | str (s : String)
  | int (n : Int)
  | ts (t : Int)
  deriving DecidableEq, Repr

/-- The pandas dtype of a column, as far as the validations observe it:
`select_dtypes(include=['number'])` keeps exactly the numeric columns. -/
inductive Dtype where
  | numeric
  | object
  deriving DecidableEq, Repr

/-- A column of the header: its name and its dtype. -/
structure Col where
  name : String
  dtype : Dtype
  deriving DecidableEq, Repr

/-- A loaded table (a pandas DataFrame): an ordered header and ordered rows. -/
structure Table where
  header : List Col
  rows : List (List Cell)
  deriving DecidableEq, Repr

/-- The three-channel validation report of the script. -/
structure Report where
  errors : List String
  warnings : List String
  info : List String
  deriving DecidableEq, Repr

/-- Models `init_report`. -/
def init_report : Report := ⟨[], [], []⟩

/-- Models `log_error`: append to the error channel. -/
def log_error (message : String) (report : Report) : Report :=
  { report with errors := report.errors ++ [message] }

/-- Models `log_warning`: append to the warning channel. -/
def log_warning (message : String) (report : Report) : Report :=
  { report with warnings := report.warnings ++ [message] }

/-- Models `log_info`: append to the info channel. -/
def log_info (message : String) (report : Report) : Report :=
  { report with info := report.info ++ [message] }

/-- Renders a Python list of names for an error message. -/
def showStrList (l : List String) : String :=
  "[" ++ String.intercalate ", " l ++ "]"

/-- Is the cell null?  Models `isnull` on one cell. -/
def Cell.isNull : Cell → Bool
  | Cell.null => true
  | _ => false

/-- Column names of a table, in order (`df.columns`). -/
def colNames (t : Table) : List String := t.header.map Col.name

/-- Does the table have a column of this name (`c in df.columns`)? -/
def hasCol (t : Table) (c : String) : Bool :=
  t.header.any (fun col => col.name == c)

/-- Column access `df[c]`: the cells of the first column named `c`, or
`none` when the column is absent (a `KeyError` in pandas). -/
def getCol (t : Table) (c : String) : Option (List Cell) :=
  match List.findIdx? (fun col => col.name == c) t.header with
  | some i => some (t.rows.map (fun row => row.getD i Cell.null))
  | none => none

/-- Column access used only under a presence guard. -/
def getColD (t : Table) (c : String) : List Cell :=
  (getCol t c).getD []

/-- Projection of one row onto the primary-key columns (`df[primary_key]`
row-wise); only evaluated when the key columns are present. -/
def projectRow (header : List Col) (pk : List String) (row : List Cell) : List Cell :=
  pk.map (fun c =>
    match List.findIdx? (fun col => col.name == c) header with
    | some i => row.getD i Cell.null
    | none => Cell.null)

/-- Primary-key projections of all rows, in row order. -/
def pkProjections (t : Table) (pk : List String) : List (List Cell) :=
  t.rows.map (projectRow t.header pk)

/-- The elements of a list that repeat an earlier occurrence (`seen` holds
the values already passed).  This is the mark pass of pandas
`duplicated(keep='first')`: null cells compare equal to each other, as
`DecidableEq Cell` makes `Cell.null = Cell.null` true. -/
def dupsAux {α : Type} [DecidableEq α] (seen : List α) : List α → List α
  | [] => []
  | x :: xs => if x ∈ seen then x :: dupsAux (x :: seen) xs else dupsAux (x :: seen) xs

/-- All non-first occurrences of values in a list, in order
(`l[l.duplicated()]`). -/
def duplicates {α : Type} [DecidableEq α] (l : List α) : List α := dupsAux [] l

/-- Models `df.columns[df.columns.duplicated()].tolist()`. -/
def duplicate_columns (t : Table) : List String := duplicates (colNames t)

/-- Models `df[primary_key].isnull().any(axis=1).sum()`: the number of rows
whose primary-key projection contains a null. -/
def pk_null_count (t : Table) (pk : List String) : Nat :=
  t.rows.countP (fun row => decide (Cell.null ∈ projectRow t.header pk row))

/-- Models `df.duplicated(subset=primary_key).sum()`: the number of rows
whose primary-key projection equals an earlier row's projection. -/
def duplicate_pk_count (t : Table) (pk : List String) : Nat :=
  (duplicates (pkProjections t pk)).length

/-- Models `run_base_validations`: emptiness halts; duplicate column names
are recorded and checking continues; missing primary-key columns halt;
null-key and duplicate-key findings are recorded without halting. -/
def run_base_validations (df : Table) (table_name : String) (primary_key : List String)
    (report : Report) : Report :=
  if df.rows = [] then
    log_error (table_name ++ ": dataset is empty") report
  else
    let dup_cols := duplicate_columns df
    let report :=
      if dup_cols ≠ [] then
        log_error (table_name ++ ": duplicate column names detected: " ++
          showStrList dup_cols) report
      else report
    let missing_pk_columns := primary_key.filter (fun col => !(hasCol df col))
    if missing_pk_columns ≠ [] then
      log_error (table_name ++ ": missing primary key column(s): " ++
        showStrList missing_pk_columns) report
    else
      let n_null := pk_null_count df primary_key
      let report :=
        if n_null > 0 then
          log_error (table_name ++ ": " ++ toString n_null ++
            " row(s) with null primary key values") report
        else report
      let n_dup := duplicate_pk_count df primary_key
      if n_dup > 0 then
        log_error (table_name ++ ": " ++ toString n_dup ++
          " duplicated primary key value(s)") report
      else report

/-- The four required timestamp columns of an `event_fact` table. -/
def required_timestamps : List String :=
  ["order_purchase_timestamp", "order_approved_at",
   "order_delivered_timestamp", "order_estimated_delivery_date"]

/-- Models `pd.to_datetime(_, errors='coerce')` on one cell: a parseable
value yields its instant, anything else (nulls included) coerces to NaT. -/
def to_datetime_cell : Cell → Option Int
  | Cell.ts t => some t
  | _ => none

/-- Column-wise `pd.to_datetime(_, errors='coerce')`. -/
def to_datetime (cells : List Cell) : List (Option Int) :=
  cells.map to_datetime_cell

/-- Models `ts.isna().sum()` after coercing parse of a column. -/
def invalid_ts_count (df : Table) (col : String) : Nat :=
  (to_datetime (getColD df col)).countP (fun o => o.isNone)

/-- Elementwise `<` on parsed timestamps: any comparison against NaT is false. -/
def ltNaT : Option Int → Option Int → Bool
  | some a, some b => decide (a < b)
  | _, _ => false

/-- Models `(xs < ys).sum()` on two aligned parsed timestamp columns. -/
def count_lt (xs ys : List (Option Int)) : Nat :=
  (xs.zip ys).countP (fun p => ltNaT p.1 p.2)

/-- Rows where approval precedes purchase (`(approved_ts < purchase_ts).sum()`). -/
def invalid_approval_count (df : Table) : Nat :=
  count_lt (to_datetime (getColD df "order_approved_at"))
           (to_datetime (getColD df "order_purchase_timestamp"))

/-- Rows where delivery precedes purchase (`(delivered_ts < purchase_ts).sum()`). -/
def invalid_delivery_count (df : Table) : Nat :=
  count_lt (to_datetime (getColD df "order_delivered_timestamp"))
           (to_datetime (getColD df "order_purchase_timestamp"))

/-- One unparsable-timestamp error message. -/
def unparsableMsg (table_name : String) (n : Nat) (col : String) : String :=
  table_name ++ ": " ++ toString n ++ " unparsable timestamp value(s) in `" ++ col ++ "`"

/-- The timestamp-parsing loop of `run_event_fact_validations`: per column,
log one aggregated error when it has unparsable values and raise the
`parsing_failed` flag; the loop itself never stops early. -/
def tsLoop (df : Table) (table_name : String) :
    List String → Report × Bool → Report × Bool
  | [], acc => acc
  | col :: rest, acc =>
      let invalid_count := invalid_ts_count df col
      if invalid_count > 0 then
        tsLoop df table_name rest (log_error (unparsableMsg table_name invalid_count col) acc.1, true)
      else tsLoop df table_name rest acc

/-- Models `run_event_fact_validations`: missing required timestamp columns
halt; unparsable values are reported per column and skip the ordering
checks; a positive approval-precedes-purchase count logs an error and
returns before the delivery-precedes-purchase check. -/
def run_event_fact_validations (df : Table) (table_name : String) (report : Report) : Report :=
  let missing_ts_columns := required_timestamps.filter (fun c => !(hasCol df c))
  if missing_ts_columns ≠ [] then
    log_error (table_name ++ ": missing required timestamp column(s): " ++
      showStrList missing_ts_columns) report
  else
    let acc := tsLoop df table_name required_timestamps (report, false)
    let report := acc.1
    let parsing_failed := acc.2
    if parsing_failed then report
    else
      let invalid_approval := invalid_approval_count df
      if invalid_approval > 0 then
        log_error (table_name ++ ": " ++ toString invalid_approval ++
          " record(s) where approval precedes purchase") report
      else
        let invalid_delivery := invalid_delivery_count df
        if invalid_delivery > 0 then
          log_error (table_name ++ ": " ++ toString invalid_delivery ++
            " record(s) where delivery precedes purchase") report
        else report

/-- Models `df.select_dtypes(include=['number']).columns.tolist()`. -/
def numeric_columns (df : Table) : List String :=
  (df.header.filter (fun col => col.dtype == Dtype.numeric)).map Col.name

/-- Models `(df[col] < 0).sum()`: nulls in a numeric column are NaN and
never compare below zero. -/
def negative_count (df : Table) (col : String) : Nat :=
  (getColD df col).countP (fun c =>
    match c with
    | Cell.int n => decide (n < 0)
    | _ => false)

/-- One negative-values error message. -/
def negativeMsg (table_name : String) (n : Nat) (col : String) : String :=
  table_name ++ ": " ++ toString n ++ " negative value(s) in numeric column `" ++ col ++ "`"

/-- The column loop of `run_transaction_detail_validations`: the first
column with a negative value logs an error and returns from the whole
function (the `return` inside the `for` loop). -/
def tdLoop (df : Table) (table_name : String) : List String → Report → Report
  | [], report => report
  | col :: rest, report =>
      let n := negative_count df col
      if n > 0 then log_error (negativeMsg table_name n col) report
      else tdLoop df table_name rest report

/-- Models `run_transaction_detail_validations`. -/
def run_transaction_detail_validations (df : Table) (table_name : String)
    (report : Report) : Report :=
  tdLoop df table_name (numeric_columns df) report

/-- Models `set(orders_df['order_id'].dropna().unique())`: the distinct
non-null order ids of the parent table. -/
def order_id_key_set (orders_col : List Cell) : List Cell :=
  (orders_col.filter (fun c => !(Cell.isNull c))).dedup

/-- Models `(~child['order_id'].isin(key_set)).sum()`: child rows whose
order id is not a member of the parent key set. -/
def orphan_count (child_col : List Cell) (key_set : List Cell) : Nat :=
  child_col.countP (fun c => decide (c ∉ key_set))

/-- Models `run_cross_table_validations`.  The dictionary accesses to the
three required tables are guarded by the missing-tables check, but the
column accesses `df['order_id']` are not guarded anywhere: on a table
lacking that column they raise `KeyError`, modelled as `Except.error`.
A positive order-items orphan count logs an error and returns before the
payments check. -/
def run_cross_table_validations (tables : List (String × Table)) (report : Report) :
    Except String Report :=
  let required_tables := ["df_Orders", "df_OrderItems", "df_payments"]
  let missing_tables := required_tables.filter (fun t => (tables.lookup t).isNone)
  if missing_tables ≠ [] then
    Except.ok (log_error ("Cross-table validation failed: missing required table(s): " ++
      showStrList missing_tables) report)
  else
    let orders_df := (tables.lookup "df_Orders").getD ⟨[], []⟩
    let order_items_df := (tables.lookup "df_OrderItems").getD ⟨[], []⟩
    let payments_df := (tables.lookup "df_payments").getD ⟨[], []⟩
    match getCol orders_df "order_id" with
    | none => Except.error "KeyError: order_id (df_Orders)"
    | some orders_col =>
      let order_id_set := order_id_key_set orders_col
      match getCol order_items_df "order_id" with
      | none => Except.error "KeyError: order_id (df_OrderItems)"
      | some items_col =>
        let orphan_items := orphan_count items_col order_id_set
        if orphan_items > 0 then
          Except.ok (log_error ("df_OrderItems: " ++ toString orphan_items ++
            " orphan record(s) referencing non-existent order_id") report)
        else
          match getCol payments_df "order_id" with
          | none => Except.error "KeyError: order_id (df_payments)"
          | some pay_col =>
            let orphan_payments := orphan_count pay_col order_id_set
            if orphan_payments > 0 then
              Except.ok (log_error ("df_payments: " ++ toString orphan_payments ++
                " orphan record(s) referencing non-existent order_id") report)
            else Except.ok report

/-- The validation role of a logical table. -/
inductive Role where
  | event_fact
  | transaction_detail
  | entity_reference
  deriving DecidableEq, Repr

/-- One entry of `TABLE_CONFIG`. -/
structure TableConfig where
  role : Role
  primary_key : List String
  deriving DecidableEq, Repr

/-- Models `TABLE_CONFIG`. -/
def TABLE_CONFIG : List (String × TableConfig) :=
  [("df_Orders", ⟨Role.event_fact, ["order_id"]⟩),
   ("df_OrderItems", ⟨Role.transaction_detail, ["order_id"]⟩),
   ("df_Customers", ⟨Role.entity_reference, ["customer_id"]⟩),
   ("df_payments", ⟨Role.transaction_detail, ["order_id", "payment_sequential"]⟩),
   ("df_products", ⟨Role.entity_reference, ["product_id"]⟩)]

/-- The per-table body of the loop in `main`: base validations first, then
the role dispatch.  `main` never consults a return value of
`run_base_validations` (the function returns `None`), so the role-level
validator is invoked unconditionally on every loaded table. -/
def validate_table (df : Table) (table_name : String) (config : TableConfig)
    (report : Report) : Report :=
  let report := run_base_validations df table_name config.primary_key report
  match config.role with
  | Role.event_fact => run_event_fact_validations df table_name report
  | Role.transaction_detail => run_transaction_detail_validations df table_name report
  | Role.entity_reference => report

/-- The pure core of one partition iteration of `main`: `load` abstracts
the loader (`None` models a missing or unloadable file, which `main` logs
and skips); every successfully loaded table is validated and then added
to the table set, and cross-table validation runs on the set.  An
uncaught exception inside cross-table validation propagates out of
`main`, so it is surfaced as `Except.error` here. -/
def validate_partition (load : String → Option Table) (report : Report) :
    Except String Report :=
  let acc := TABLE_CONFIG.foldl
    (fun (acc : List (String × Table) × Report) tc =>
      match load tc.1 with
      | none => (acc.1, log_error ("Missing file: " ++ tc.1) acc.2)
      | some df => (acc.1 ++ [(tc.1, df)], validate_table df tc.1 tc.2 acc.2))
    ([], report)
  run_cross_table_validations acc.1 acc.2

/-! Helper lemmas about the embedded operations. -/

@[simp]
lemma log_error_errors (m : String) (r : Report) :
    (log_error m r).errors = r.errors ++ [m] := rfl

lemma tsLoop_spec (df : Table) (name : String) (cols : List String) (r : Report) (b : Bool) :
    (tsLoop df name cols (r, b)).1.errors
      = r.errors ++ (cols.filter (fun c => decide (0 < invalid_ts_count df c))).map
          (fun c => unparsableMsg name (invalid_ts_count df c) c)
    ∧ (tsLoop df name cols (r, b)).2
      = (b || cols.any (fun c => decide (0 < invalid_ts_count df c))) := by
  induction cols generalizing r b with
  | nil => simp [tsLoop]
  | cons c rest ih =>
    by_cases h : 0 < invalid_ts_count df c
    · simpa [tsLoop, h, List.append_assoc] using ih (log_error (unparsableMsg name (invalid_ts_count df c) c) r) true
    · simpa [tsLoop, h] using ih r b

lemma tdLoop_spec (df : Table) (name : String) (cols : List String) (r : Report) :
    (tdLoop df name cols r).errors
      = r.errors ++ (match cols.find? (fun c => decide (0 < negative_count df c)) with
          | some c => [negativeMsg name (negative_count df c) c]
          | none => []) := by
  induction cols generalizing r with
  | nil => simp [tdLoop]
  | cons c rest ih =>
    by_cases h : 0 < negative_count df c
    · simp [tdLoop, h, List.find?]
    · simpa [tdLoop, h, List.find?] using ih r

lemma dupsAux_append_singleton {α : Type} [DecidableEq α] (seen l : List α) (x : α) :
    dupsAux seen (l ++ [x]) = dupsAux seen l ++ (if x ∈ seen ∨ x ∈ l then [x] else []) := by
  induction l generalizing seen with
  | nil => simp [dupsAux]
  | cons y ys ih =>
    have hcond : ((x = y ∨ x ∈ seen) ∨ x ∈ ys) ↔ (x ∈ seen ∨ x = y ∨ x ∈ ys) := by
      tauto
    by_cases hy : y ∈ seen <;>
      simp [dupsAux, hy, ih (y :: seen), hcond]

lemma dupsAux_length_add_card {α : Type} [DecidableEq α] (seen l : List α) :
    (dupsAux seen l).length + (l.toFinset \ seen.toFinset).card = l.length := by
  induction l generalizing seen with
  | nil => simp [dupsAux]
  | cons x xs ih =>
    by_cases hx : x ∈ seen
    · have h1 : (x :: xs).toFinset \ seen.toFinset = xs.toFinset \ seen.toFinset := by
        ext a
        simp only [List.toFinset_cons, Finset.mem_sdiff, Finset.mem_insert, List.mem_toFinset]
        constructor
        · rintro ⟨h | h, hn⟩
          · exact absurd (h ▸ hx) hn
          · exact ⟨h, hn⟩
        · rintro ⟨h, hn⟩
          exact ⟨Or.inr h, hn⟩
      have h2 := ih (x :: seen)
      have h3 : (x :: seen).toFinset = seen.toFinset := by
        simp only [List.toFinset_cons]
        exact Finset.insert_eq_self.mpr (List.mem_toFinset.mpr hx)
      rw [h3] at h2
      simp only [dupsAux, if_pos hx, List.length_cons, h1]
      omega
    · have h2 := ih (x :: seen)
      have key : ((x :: xs).toFinset \ seen.toFinset).card
          = (xs.toFinset \ (x :: seen).toFinset).card + 1 := by
        have e1 : (x :: xs).toFinset \ seen.toFinset
            = insert x (xs.toFinset \ seen.toFinset) := by
          ext a
          simp only [List.toFinset_cons, Finset.mem_sdiff, Finset.mem_insert, List.mem_toFinset]
          constructor
          · rintro ⟨h | h, hn⟩
            · exact Or.inl h
            · exact Or.inr ⟨h, hn⟩
          · rintro (h | ⟨h, hn⟩)
            · exact ⟨Or.inl h, h ▸ hx⟩
            · exact ⟨Or.inr h, hn⟩
        have e2 : xs.toFinset \ (x :: seen).toFinset
            = (xs.toFinset \ seen.toFinset).erase x := by
          ext a
          simp only [List.toFinset_cons, Finset.mem_sdiff, Finset.mem_insert, List.mem_toFinset,
            Finset.mem_erase]
          tauto
        rw [e1, e2]
        by_cases hxs : x ∈ xs.toFinset \ seen.toFinset
        · rw [Finset.insert_eq_self.mpr hxs, Finset.card_erase_of_mem hxs]
          have hpos : 0 < (xs.toFinset \ seen.toFinset).card := Finset.card_pos.mpr ⟨x, hxs⟩
          omega
        · rw [Finset.card_insert_of_not_mem hxs, Finset.erase_eq_self.mpr hxs]
      simp only [dupsAux, if_neg hx, List.length_cons]
      omega

lemma duplicates_length_add_card {α : Type} [DecidableEq α] (l : List α) :
    (duplicates l).length + l.toFinset.card = l.length := by
  have h := dupsAux_length_add_card ([] : List α) l
  simpa [duplicates] using h

lemma duplicates_append_singleton {α : Type} [DecidableEq α] (l : List α) (x : α) :
    duplicates (l ++ [x]) = duplicates l ++ (if x ∈ l then [x] else []) := by
  have h := dupsAux_append_singleton ([] : List α) l x
  simpa [duplicates] using h

lemma duplicates_eq_nil_of_nodup {α : Type} [DecidableEq α] (l : List α) (h : l.Nodup) :
    duplicates l = [] := by
  have hc := duplicates_length_add_card l
  rw [List.toFinset_card_of_nodup h] at hc
  have : (duplicates l).length = 0 := by omega
  exact List.length_eq_zero.mp this

/-! Concrete tables used by the claim theorems. -/

/-- An event_fact table with one row whose approval time (5) and delivery
time (5) both precede the purchase time (10); all timestamps parse. -/
def c1Table : Table :=
  ⟨[⟨"order_purchase_timestamp", Dtype.object⟩, ⟨"order_approved_at", Dtype.object⟩,
    ⟨"order_delivered_timestamp", Dtype.object⟩, ⟨"order_estimated_delivery_date", Dtype.object⟩],
   [[Cell.ts 10, Cell.ts 5, Cell.ts 5, Cell.ts 20]]⟩

/-- C1 (counterexample): on a row where approval precedes purchase and
delivery also precedes purchase, the code logs only the approval error
and returns; the delivery-precedes-purchase violation (count 1) is never
reported, so the two checks are not independent as claimed. -/
theorem c1_counterexample :
    invalid_delivery_count c1Table = 1 ∧
    (run_event_fact_validations c1Table "df_Orders" init_report).errors
      = ["df_Orders: 1 record(s) where approval precedes purchase"] :=
  ⟨rfl, rfl⟩

/-- C1 (amended): when all four timestamp columns are present and every
value parses, the approval-precedes-purchase check runs first; a positive
approval count logs one error and suppresses the delivery check; the
delivery check runs (and reports its count) only when the approval count
is zero; with both counts zero no error is added. -/
theorem c1_amended (df : Table) (name : String) (r : Report)
    (hcols : required_timestamps.filter (fun c => !(hasCol df c)) = [])
    (hparse : ∀ c ∈ required_timestamps, invalid_ts_count df c = 0) :
    (0 < invalid_approval_count df →
      (run_event_fact_validations df name r).errors
        = r.errors ++ [name ++ ": " ++ toString (invalid_approval_count df) ++
            " record(s) where approval precedes purchase"])
    ∧ (invalid_approval_count df = 0 → 0 < invalid_delivery_count df →
      (run_event_fact_validations df name r).errors
        = r.errors ++ [name ++ ": " ++ toString (invalid_delivery_count df) ++
            " record(s) where delivery precedes purchase"])
    ∧ (invalid_approval_count df = 0 → invalid_delivery_count df = 0 →
      (run_event_fact_validations df name r).errors = r.errors) := by
  obtain ⟨herr, hflag⟩ := tsLoop_spec df name required_timestamps r false
  have hfilter : required_timestamps.filter (fun c => decide (0 < invalid_ts_count df c)) = [] := by
    rw [List.filter_eq_nil_iff]
    intro c hc
    simp [hparse c hc]
  have hany : required_timestamps.any (fun c => decide (0 < invalid_ts_count df c)) = false := by
    rw [← Bool.not_eq_true, List.any_eq_true]
    rintro ⟨c, hc, hpos⟩
    simp [hparse c hc] at hpos
  rw [hfilter] at herr
  simp only [List.map_nil, List.append_nil] at herr
  rw [hany] at hflag
  simp only [Bool.or_false] at hflag
  refine ⟨?_, ?_, ?_⟩
  · intro h
    simp only [run_event_fact_validations, hcols, ne_eq, not_true_eq_false, if_false,
      hflag, Bool.false_eq_true, if_pos h, log_error_errors, herr]
  · intro h0 h
    simp only [run_event_fact_validations, hcols, ne_eq, not_true_eq_false, if_false,
      hflag, Bool.false_eq_true, h0, lt_irrefl, if_pos h, log_error_errors, herr]
  · intro h0 h1
    simp only [run_event_fact_validations, hcols, ne_eq, not_true_eq_false, if_false,
      hflag, Bool.false_eq_true, h0, h1, lt_irrefl, if_false, herr]

/-- The concrete input for the C1 amended theorem's witness: the table has
an approval-precedes-purchase row, all values parse, and exactly the
approval error is reported. -/
theorem c1_amended_witness :
    0 < invalid_approval_count c1Table ∧
    (run_event_fact_validations c1Table "df_Orders" init_report).errors
      = init_report.errors ++ ["df_Orders: " ++ toString (invalid_approval_count c1Table) ++
          " record(s) where approval precedes purchase"] :=
  ⟨by decide, (c1_amended c1Table "df_Orders" init_report (by decide)
      (by decide)).1 (by decide)⟩

/-- An event_fact table whose `order_approved_at` column holds one
unparsable value, while another row pair would violate temporal ordering
if the ordering checks ran. -/
def c6Table : Table :=
  ⟨[⟨"order_purchase_timestamp", Dtype.object⟩, ⟨"order_approved_at", Dtype.object⟩,
    ⟨"order_delivered_timestamp", Dtype.object⟩, ⟨"order_estimated_delivery_date", Dtype.object⟩],
   [[Cell.ts 10, Cell.str "garbage", Cell.ts 5, Cell.ts 20],
    [Cell.ts 10, Cell.ts 4, Cell.ts 4, Cell.ts 20]]⟩

/-- C6 (confirmed): when the four required timestamp columns are present
and at least one of them has an unparsable value, the errors appended by
event_fact validation are exactly one aggregated message per column with
a positive unparsable count (never one per row), and nothing else — in
particular both temporal-ordering checks are skipped. -/
theorem c6_parse_errors (df : Table) (name : String) (r : Report)
    (hcols : required_timestamps.filter (fun c => !(hasCol df c)) = [])
    (hbad : required_timestamps.any (fun c => decide (0 < invalid_ts_count df c)) = true) :
    (run_event_fact_validations df name r).errors
      = r.errors ++ (required_timestamps.filter (fun c => decide (0 < invalid_ts_count df c))).map
          (fun c => unparsableMsg name (invalid_ts_count df c) c) := by
  obtain ⟨herr, hflag⟩ := tsLoop_spec df name required_timestamps r false
  rw [hbad] at hflag
  simp only [Bool.or_true] at hflag
  simp only [run_event_fact_validations, hcols, ne_eq, not_true_eq_false, if_false, hflag,
    if_true, herr]

/-- The concrete input for the C6 theorem's witness: one unparsable value
in `order_approved_at` yields exactly one aggregated error and both
ordering checks are skipped even though the second row has delivery and
approval before purchase. -/
theorem c6_parse_errors_witness :
    required_timestamps.any (fun c => decide (0 < invalid_ts_count c6Table c)) = true ∧
    (run_event_fact_validations c6Table "df_Orders" init_report).errors
      = init_report.errors
        ++ (required_timestamps.filter (fun c => decide (0 < invalid_ts_count c6Table c))).map
            (fun c => unparsableMsg "df_Orders" (invalid_ts_count c6Table c) c) :=
  ⟨by decide, c6_parse_errors c6Table "df_Orders" init_report (by decide) (by decide)⟩

/-- An empty table (no rows, no columns), as loaded from a header-less or
header-only file. -/
def c2Table : Table := ⟨[], []⟩

/-- C2 (counterexample): validating an empty event_fact table produces TWO
errors, not one — `main` never consults a halt signal from base
validation (the function returns `None`), so the role-level check is
still invoked and adds its missing-timestamp-columns error. -/
theorem c2_counterexample :
    (validate_table c2Table "df_Orders" ⟨Role.event_fact, ["order_id"]⟩ init_report).errors
      = ["df_Orders: dataset is empty",
         "df_Orders: missing required timestamp column(s): [order_purchase_timestamp, order_approved_at, order_delivered_timestamp, order_estimated_delivery_date]"] :=
  rfl

/-- C2 (amended): base validation on an empty table appends exactly one
error and performs none of its later checks, but the short-circuit is
internal to base validation only: the orchestrator still invokes the
role-level check on that table (which may append further errors), for
every role. -/
theorem c2_amended (df : Table) (name : String) (pk : List String) (r : Report)
    (h : df.rows = []) :
    run_base_validations df name pk r = log_error (name ++ ": dataset is empty") r
    ∧ (∀ cfg : TableConfig, cfg.role = Role.event_fact →
        validate_table df name cfg r
          = run_event_fact_validations df name (run_base_validations df name cfg.primary_key r))
    ∧ (∀ cfg : TableConfig, cfg.role = Role.transaction_detail →
        validate_table df name cfg r
          = run_transaction_detail_validations df name (run_base_validations df name cfg.primary_key r)) := by
  refine ⟨?_, ?_, ?_⟩
  · simp [run_base_validations, h]
  · rintro ⟨role, pk'⟩ hrole
    simp only at hrole
    subst hrole
    rfl
  · rintro ⟨role, pk'⟩ hrole
    simp only at hrole
    subst hrole
    rfl

/-- The concrete input for the C2 amended theorem's witness: on the empty
table, base validation appends exactly the one emptiness error. -/
theorem c2_amended_witness :
    c2Table.rows = [] ∧
    run_base_validations c2Table "df_Orders" ["order_id"] init_report
      = log_error ("df_Orders" ++ ": dataset is empty") init_report :=
  ⟨rfl, (c2_amended c2Table "df_Orders" ["order_id"] init_report rfl).1⟩

/-- A transaction_detail table with two numeric columns, each containing
one negative value. -/
def c3Table : Table :=
  ⟨[⟨"price", Dtype.numeric⟩, ⟨"freight_value", Dtype.numeric⟩],
   [[Cell.int (-5), Cell.int (-7)]]⟩

/-- C3 (counterexample): both numeric columns hold a negative value, yet
only the first (`price`) is reported; `freight_value` has negative count
1 but produces no error, because the loop returns after the first
violating column. -/
theorem c3_counterexample :
    negative_count c3Table "freight_value" = 1 ∧
    (run_transaction_detail_validations c3Table "df_OrderItems" init_report).errors
      = ["df_OrderItems: 1 negative value(s) in numeric column `price`"] :=
  ⟨rfl, rfl⟩

/-- C3 (amended): numeric columns are scanned in order and exactly the
first column with a positive negative-value count is reported, with an
error naming that column and its count of negative cells; columns after
it are not checked, and when no column has a negative value no error is
appended. -/
theorem c3_amended (df : Table) (name : String) (r : Report) :
    (run_transaction_detail_validations df name r).errors
      = r.errors
        ++ (match (numeric_columns df).find? (fun c => decide (0 < negative_count df c)) with
            | some c => [negativeMsg name (negative_count df c) c]
            | none => []) :=
  tdLoop_spec df name (numeric_columns df) r

/-- A non-empty table with a duplicated column name `a` and without the
primary-key column `product_id`. -/
def c8Table : Table :=
  ⟨[⟨"a", Dtype.object⟩, ⟨"a", Dtype.object⟩, ⟨"b", Dtype.object⟩],
   [[Cell.str "x", Cell.str "y", Cell.str "z"]]⟩

/-- C8 (confirmed): in base validation of a non-empty table the
duplicate-column-names finding is recorded and validation continues,
whereas missing primary-key columns halt: with a missing key column the
appended errors are the optional duplicate-columns error followed by the
missing-key error and nothing else (no null-key or duplicate-key check);
with all key columns present, the null-key and duplicate-key checks both
run after the optional duplicate-columns error. -/
theorem c8_base_halting (df : Table) (name : String) (pk : List String) (r : Report)
    (hne : df.rows ≠ []) :
    (pk.filter (fun col => !(hasCol df col)) ≠ [] →
      (run_base_validations df name pk r).errors
        = r.errors
          ++ (if duplicate_columns df ≠ [] then
                [name ++ ": duplicate column names detected: " ++
                  showStrList (duplicate_columns df)]
              else [])
          ++ [name ++ ": missing primary key column(s): " ++
                showStrList (pk.filter (fun col => !(hasCol df col)))])
    ∧ (pk.filter (fun col => !(hasCol df col)) = [] →
      (run_base_validations df name pk r).errors
        = r.errors
          ++ (if duplicate_columns df ≠ [] then
                [name ++ ": duplicate column names detected: " ++
                  showStrList (duplicate_columns df)]
              else [])
          ++ (if 0 < pk_null_count df pk then
                [name ++ ": " ++ toString (pk_null_count df pk) ++
                  " row(s) with null primary key values"]
              else [])
          ++ (if 0 < duplicate_pk_count df pk then
                [name ++ ": " ++ toString (duplicate_pk_count df pk) ++
                  " duplicated primary key value(s)"]
              else [])) := by
  constructor
  · intro hmiss
    by_cases hdup : duplicate_columns df ≠ [] <;>
      simp [run_base_validations, hne, hmiss, hdup, List.append_assoc]
  · intro hmiss
    by_cases hdup : duplicate_columns df ≠ [] <;>
    by_cases hnull : 0 < pk_null_count df pk <;>
    by_cases hdk : 0 < duplicate_pk_count df pk <;>
      simp [run_base_validations, hne, hmiss, hdup, hnull, hdk, List.append_assoc]

/-- The concrete input for the C8 theorem's witness: the table has a
duplicated column name and lacks its primary-key column, so both the
duplicate-columns error and the missing-key error are appended, in that
order, and nothing else. -/
theorem c8_base_halting_witness :
    c8Table.rows ≠ [] ∧
    ["product_id"].filter (fun col => !(hasCol c8Table col)) ≠ [] ∧
    (run_base_validations c8Table "df_products" ["product_id"] init_report).errors
      = init_report.errors
        ++ (if duplicate_columns c8Table ≠ [] then
              ["df_products" ++ ": duplicate column names detected: " ++
                showStrList (duplicate_columns c8Table)]
            else [])
        ++ ["df_products" ++ ": missing primary key column(s): " ++
              showStrList (["product_id"].filter (fun col => !(hasCol c8Table col)))] :=
  ⟨by decide, by decide,
   (c8_base_halting c8Table "df_products" ["product_id"] init_report
      (by decide)).1 (by decide)⟩

/-- Orders table whose only key is A. -/
def c4Orders : Table := ⟨[⟨"order_id", Dtype.object⟩], [[Cell.str "A"]]⟩

/-- Order-items table referencing the non-existent order C. -/
def c4Items : Table := ⟨[⟨"order_id", Dtype.object⟩], [[Cell.str "C"]]⟩

/-- Payments table referencing the non-existent order D. -/
def c4Pays : Table := ⟨[⟨"order_id", Dtype.object⟩], [[Cell.str "D"]]⟩

/-- C4 (counterexample): with orphans in both order-items (C) and payments
(D), only the order-items error is reported: the payments orphan check
(whose count is 1) never runs because the function returns after the
order-items error. -/
theorem c4_counterexample :
    orphan_count (getColD c4Pays "order_id") (order_id_key_set (getColD c4Orders "order_id")) = 1 ∧
    run_cross_table_validations
        [("df_Orders", c4Orders), ("df_OrderItems", c4Items), ("df_payments", c4Pays)]
        init_report
      = Except.ok ⟨["df_OrderItems: 1 orphan record(s) referencing non-existent order_id"], [], []⟩ :=
  ⟨rfl, rfl⟩

/-- C4 (amended): when the three required tables are present and each has
its order_id column, the order-items orphan check runs first; a positive
order-items orphan count logs one error and suppresses the payments
check, which runs (and reports its own count) only when the order-items
orphan count is zero. -/
theorem c4_amended (orders items pays : Table) (r : Report)
    (oCol iCol pCol : List Cell)
    (ho : getCol orders "order_id" = some oCol)
    (hi : getCol items "order_id" = some iCol)
    (hp : getCol pays "order_id" = some pCol) :
    (0 < orphan_count iCol (order_id_key_set oCol) →
      run_cross_table_validations
          [("df_Orders", orders), ("df_OrderItems", items), ("df_payments", pays)] r
        = Except.ok (log_error ("df_OrderItems: " ++
            toString (orphan_count iCol (order_id_key_set oCol)) ++
            " orphan record(s) referencing non-existent order_id") r))
    ∧ (orphan_count iCol (order_id_key_set oCol) = 0 →
       0 < orphan_count pCol (order_id_key_set oCol) →
      run_cross_table_validations
          [("df_Orders", orders), ("df_OrderItems", items), ("df_payments", pays)] r
        = Except.ok (log_error ("df_payments: " ++
            toString (orphan_count pCol (order_id_key_set oCol)) ++
            " orphan record(s) referencing non-existent order_id") r))
    ∧ (orphan_count iCol (order_id_key_set oCol) = 0 →
       orphan_count pCol (order_id_key_set oCol) = 0 →
      run_cross_table_validations
          [("df_Orders", orders), ("df_OrderItems", items), ("df_payments", pays)] r
        = Except.ok r) := by
  have hmiss : (["df_Orders", "df_OrderItems", "df_payments"].filter
      (fun t => (List.lookup t
        [("df_Orders", orders), ("df_OrderItems", items), ("df_payments", pays)]).isNone)) = [] :=
    rfl
  have h1 : (List.lookup "df_Orders"
      [("df_Orders", orders), ("df_OrderItems", items), ("df_payments", pays)]).getD
        (⟨[], []⟩ : Table) = orders := rfl
  have h2 : (List.lookup "df_OrderItems"
      [("df_Orders", orders), ("df_OrderItems", items), ("df_payments", pays)]).getD
        (⟨[], []⟩ : Table) = items := rfl
  have h3 : (List.lookup "df_payments"
      [("df_Orders", orders), ("df_OrderItems", items), ("df_payments", pays)]).getD
        (⟨[], []⟩ : Table) = pays := rfl
  refine ⟨?_, ?_, ?_⟩
  · intro h
    simp only [run_cross_table_validations, hmiss, ne_eq, not_true_eq_false, if_false,
      h1, h2, h3, ho, hi, hp, if_pos h]
  · intro h0 h
    simp only [run_cross_table_validations, hmiss, ne_eq, not_true_eq_false, if_false,
      h1, h2, h3, ho, hi, hp, h0, lt_irrefl, if_false, if_pos h]
  · intro h0 h1p
    simp only [run_cross_table_validations, hmiss, ne_eq, not_true_eq_false, if_false,
      h1, h2, h3, ho, hi, hp, h0, h1p, lt_irrefl, if_false]

/-- Payments table of the C4 witness, referencing the non-existent order D. -/
def c4wPays : Table := ⟨[⟨"order_id", Dtype.object⟩], [[Cell.str "D"]]⟩

/-- Order-items table of the C4 witness, referencing the existing order A. -/
def c4wItems : Table := ⟨[⟨"order_id", Dtype.object⟩], [[Cell.str "A"]]⟩

/-- The concrete input for the C4 amended theorem's witness: with zero
order-items orphans the payments check runs and reports its orphan. -/
theorem c4_amended_witness :
    run_cross_table_validations
        [("df_Orders", c4Orders), ("df_OrderItems", c4wItems), ("df_payments", c4wPays)]
        init_report
      = Except.ok ⟨["df_payments: 1 orphan record(s) referencing non-existent order_id"], [], []⟩ := by
  have h := (c4_amended c4Orders c4wItems c4wPays init_report
      [Cell.str "A"] [Cell.str "A"] [Cell.str "D"] rfl rfl rfl).2.1 (by decide) (by decide)
  exact h.trans rfl

/-- The loader of the C5 failing input: the orders file loads but lacks the
order_id column (e.g. a malformed header), while order-items and payments
load normally; customers and products are missing. -/
def c5Load : String → Option Table
  | "df_Orders" => some ⟨[⟨"customer_id", Dtype.object⟩], [[Cell.str "x"]]⟩
  | "df_OrderItems" => some ⟨[⟨"order_id", Dtype.object⟩], [[Cell.str "A"]]⟩
  | "df_payments" => some ⟨[⟨"order_id", Dtype.object⟩, ⟨"payment_sequential", Dtype.numeric⟩],
      [[Cell.str "A", Cell.int 1]]⟩
  | _ => none

/-- C5 (code bug): a run whose loaded orders table lacks the order_id
column reaches cross-table validation (base validation has already
recorded the missing key column, but the table is still added to the
table set) and the unguarded access `orders_df['order_id']` raises
`KeyError`, aborting the run before the exit-status decision instead of
surfacing one more error message in the report. -/
theorem c5_keyerror :
    validate_partition c5Load init_report = Except.error "KeyError: order_id (df_Orders)" :=
  rfl

/-- A table whose two rows both have a null primary key. -/
def c7Table : Table := ⟨[⟨"order_id", Dtype.object⟩], [[Cell.null], [Cell.null]]⟩

/-- C7 (counterexample): two rows whose key projections are equal only
because both are null ARE counted as duplicates of each other (pandas
`duplicated` treats nulls as equal): the table gets both the null-key
error (count 2) and a duplicate-key error (count 1), whereas the claim
says null-key rows never participate in the uniqueness comparison. -/
theorem c7_counterexample :
    duplicate_pk_count c7Table ["order_id"] = 1 ∧
    (run_base_validations c7Table "df_OrderItems" ["order_id"] init_report).errors
      = ["df_OrderItems: 2 row(s) with null primary key values",
         "df_OrderItems: 1 duplicated primary key value(s)"] :=
  ⟨rfl, rfl⟩

/-- C7 (amended): a row with a null primary-key component is counted in
the null-key error AND still participates in the duplicate comparison,
with null components comparing equal: appending such a row whose
projection already occurs among the earlier rows increments both the
null-key count and the duplicate-key count by one. -/
theorem c7_amended (header : List Col) (rows : List (List Cell)) (pk : List String)
    (x : List Cell)
    (hnull : Cell.null ∈ projectRow header pk x)
    (hdup : projectRow header pk x ∈ pkProjections ⟨header, rows⟩ pk) :
    pk_null_count ⟨header, rows ++ [x]⟩ pk = pk_null_count ⟨header, rows⟩ pk + 1
    ∧ duplicate_pk_count ⟨header, rows ++ [x]⟩ pk
        = duplicate_pk_count ⟨header, rows⟩ pk + 1 := by
  constructor
  · simp [pk_null_count, List.countP_append, hnull]
  · simp only [pkProjections] at hdup
    simp only [duplicate_pk_count, pkProjections, List.map_append, List.map_cons, List.map_nil]
    rw [duplicates_append_singleton]
    simp [hdup]

/-- The concrete input for the C7 amended theorem's witness: appending a
second all-null-key row increments both counts. -/
theorem c7_amended_witness :
    Cell.null ∈ projectRow [⟨"order_id", Dtype.object⟩] ["order_id"] [Cell.null] ∧
    pk_null_count ⟨[⟨"order_id", Dtype.object⟩], [[Cell.null], [Cell.null]]⟩ ["order_id"]
      = pk_null_count ⟨[⟨"order_id", Dtype.object⟩], [[Cell.null]]⟩ ["order_id"] + 1 ∧
    duplicate_pk_count ⟨[⟨"order_id", Dtype.object⟩], [[Cell.null], [Cell.null]]⟩ ["order_id"]
      = duplicate_pk_count ⟨[⟨"order_id", Dtype.object⟩], [[Cell.null]]⟩ ["order_id"] + 1 := by
  have h := c7_amended [⟨"order_id", Dtype.object⟩] [[Cell.null]] ["order_id"] [Cell.null]
      (by decide) (by decide)
  exact ⟨by decide, h.1, h.2⟩

/-- C9 (confirmed): the reported duplicate-key count equals the number of
rows beyond the first occurrence in each group of equal key projections
(count + number of distinct projections = number of rows); appending one
extra row duplicating an existing key raises the count by exactly one,
while a row with a fresh key raises it by zero; and with all projections
distinct no first occurrence is ever flagged (count zero). -/
theorem c9_duplicate_count (header : List Col) (rows : List (List Cell)) (pk : List String)
    (x : List Cell) :
    (duplicate_pk_count ⟨header, rows⟩ pk + (pkProjections ⟨header, rows⟩ pk).toFinset.card
        = rows.length)
    ∧ (duplicate_pk_count ⟨header, rows ++ [x]⟩ pk
        = duplicate_pk_count ⟨header, rows⟩ pk
          + (if projectRow header pk x ∈ pkProjections ⟨header, rows⟩ pk then 1 else 0))
    ∧ ((pkProjections ⟨header, rows⟩ pk).Nodup → duplicate_pk_count ⟨header, rows⟩ pk = 0) := by
  refine ⟨?_, ?_, ?_⟩
  · have h := duplicates_length_add_card (pkProjections ⟨header, rows⟩ pk)
    simpa [duplicate_pk_count, pkProjections] using h
  · simp only [duplicate_pk_count, pkProjections, List.map_append, List.map_cons, List.map_nil]
    rw [duplicates_append_singleton]
    by_cases h : projectRow header pk x ∈ List.map (projectRow header pk) rows <;>
      simp [h]
  · intro h
    simp only [duplicate_pk_count]
    rw [duplicates_eq_nil_of_nodup _ h]
    rfl

/-- The concrete input for the C9 theorem's witness: keys A,B are distinct
(count 0), and appending a duplicate of A raises the count by one. -/
theorem c9_duplicate_count_witness :
    (pkProjections ⟨[⟨"order_id", Dtype.object⟩], [[Cell.str "A"], [Cell.str "B"]]⟩
        ["order_id"]).Nodup ∧
    duplicate_pk_count ⟨[⟨"order_id", Dtype.object⟩], [[Cell.str "A"], [Cell.str "B"]]⟩
        ["order_id"] = 0 ∧
    duplicate_pk_count
        ⟨[⟨"order_id", Dtype.object⟩], [[Cell.str "A"], [Cell.str "B"]] ++ [[Cell.str "A"]]⟩
        ["order_id"]
      = duplicate_pk_count ⟨[⟨"order_id", Dtype.object⟩], [[Cell.str "A"], [Cell.str "B"]]⟩
          ["order_id"]
        + (if projectRow [⟨"order_id", Dtype.object⟩] ["order_id"] [Cell.str "A"]
              ∈ pkProjections ⟨[⟨"order_id", Dtype.object⟩], [[Cell.str "A"], [Cell.str "B"]]⟩
                  ["order_id"] then 1 else 0) := by
  have h := c9_duplicate_count [⟨"order_id", Dtype.object⟩]
      [[Cell.str "A"], [Cell.str "B"]] ["order_id"] [Cell.str "A"]
  exact ⟨by decide, h.2.2 (by decide), h.2.1⟩

/-- C10 (confirmed): the parent key set is built from the orders table's
order_id values with nulls excluded, so null never occurs in the key set,
a null child reference never matches it (every null order_id in a child
column is counted among the orphans), and a null order_id in orders never
serves as a matching parent key. -/
theorem c10_null_keys (orders_col child_col : List Cell) :
    Cell.null ∉ order_id_key_set orders_col
    ∧ (∀ c ∈ child_col, c = Cell.null → c ∉ order_id_key_set orders_col)
    ∧ child_col.count Cell.null ≤ orphan_count child_col (order_id_key_set orders_col) := by
  have hnot : Cell.null ∉ order_id_key_set orders_col := by
    simp [order_id_key_set, List.mem_dedup, List.mem_filter, Cell.isNull]
  refine ⟨hnot, ?_, ?_⟩
  · intro c _ hc
    rw [hc]
    exact hnot
  · rw [List.count_eq_countP]
    apply List.countP_mono_left
    intro c _ heq
    have hc : c = Cell.null := by simpa using heq
    simp [hc, hnot]

/-- The concrete input for the C10 theorem's witness: a null in orders is
dropped from the key set, and the null child reference counts as orphan. -/
theorem c10_null_keys_witness :
    Cell.null ∉ order_id_key_set [Cell.null, Cell.str "A"]
    ∧ [Cell.null, Cell.str "C"].count Cell.null
        ≤ orphan_count [Cell.null, Cell.str "C"] (order_id_key_set [Cell.null, Cell.str "A"]) := by
  have h := c10_null_keys [Cell.null, Cell.str "A"] [Cell.null, Cell.str "C"]
  exact ⟨h.1, h.2.2⟩

end RawDataValidation
